import Mathlib

/-!
Verification of the incremental chain-of-thought response parser and display
formatter of the Simple-Ai-Agent chat client (`src/js/chat-controller.js`,
module `ResponseProcessor`).

Strings are modelled as lists of characters (`Str := List Char`).  The
JavaScript regular expressions used by the source are modelled by explicit
substring scans with the same semantics:

* `/Thinking:(.*?)(?=Answer:|$)/s` matches iff the text contains the literal
  `"Thinking:"`; its capture group is the text after the first `"Thinking:"`
  up to the first subsequent `"Answer:"` (to the end of text when none
  follows), since `.` spans newlines under the `s` flag and the lazy
  quantifier stops at the first position where the lookahead succeeds.
* `/Answer:(.*?)$/s` matches iff the text contains `"Answer:"`; its capture
  group is everything after the first `"Answer:"` to the end of the text.
* `response.replace(/^Thinking:/, '')` strips the literal prefix when present.
* `fullText.replace(/^.*?Thinking:/s, '')` removes everything up to and
  including the first `"Thinking:"`.

The module-level mutable fields `lastThinkingContent`, `lastAnswerContent`
and `isThinking` are modelled by an explicit state record `PState` threaded
through `processCoTResponse`.  JavaScript object fields that a branch leaves
absent (`partial`, `stage`) are modelled by their falsy defaults
(`false`, `none`), matching how the consuming code tests them.
-/

namespace SimpleAiAgent

/-- Strings are modelled as lists of characters. -/
abbrev Str := List Char

/-- `startsWithL p s` is true iff `p` is a literal prefix of `s`
(JavaScript `s.startsWith(p)`). -/
def startsWithL : Str → Str → Bool
  | [], _ => true
  | _ :: _, [] => false
  | p :: ps, c :: cs => p == c && startsWithL ps cs

/-- `containsSub p s` is true iff `p` occurs as a contiguous substring of `s`
(JavaScript `s.includes(p)`). -/
def containsSub (p : Str) : Str → Bool
  | [] => startsWithL p []
  | c :: s => startsWithL p (c :: s) || containsSub p s

/-- Everything after the first occurrence of `p` in `s`
(empty when `p` does not occur). -/
def afterFirst (p : Str) : Str → Str
  | [] => []
  | c :: s => if startsWithL p (c :: s) then (c :: s).drop p.length else afterFirst p s

/-- The prefix of `s` up to (excluding) the first occurrence of `p`;
all of `s` when `p` does not occur.  This is the lazy-quantifier semantics of
`(.*?)(?=p|$)` under the `s` flag. -/
def takeUntil (p : Str) : Str → Str
  | [] => []
  | c :: s => if startsWithL p (c :: s) then [] else c :: takeUntil p s

/-- Strips `p` from the front of `s` when it is a prefix
(JavaScript `s.replace(/^p/, '')`). -/
def stripPre (p s : Str) : Str :=
  if startsWithL p s then s.drop p.length else s

/-- ASCII whitespace recognised by `String.prototype.trim`. -/
def isWS (c : Char) : Bool :=
  c == ' ' || c == '\t' || c == '\n' || c == '\r'

/-- JavaScript `s.trim()`: removes whitespace from both ends. -/
def trimL (s : Str) : Str :=
  ((s.dropWhile isWS).reverse.dropWhile isWS).reverse

/-- The literal marker `"Thinking:"`. -/
def thinkingMarker : Str := "Thinking:".data

/-- The literal marker `"Answer:"`. -/
def answerMarker : Str := "Answer:".data

/-- The stage tag string `'thinking'` used by the source. -/
def thinkingStage : Str := "thinking".data

/-- The fixed waiting placeholder `'🤔 Thinking...'`. -/
def thinkingPlaceholder : Str := "🤔 Thinking...".data

/-- The classification record returned by `processCoTResponse` and
`processPartialCoTResponse`.  `isPartial` models the JS field named
`partial` (absent means `false`); `stage` models the optional JS `stage`
field (absent means `none`). -/
structure CoTResult where
  thinking : Str
  answer : Str
  hasStructuredResponse : Bool
  isPartial : Bool := false
  stage : Option Str := none
  deriving DecidableEq

/-- The module-level mutable state of `ResponseProcessor`
(`lastThinkingContent`, `lastAnswerContent`, `isThinking`). -/
structure PState where
  lastThinkingContent : Str
  lastAnswerContent : Str
  isThinking : Bool
  deriving DecidableEq

/-- The state right after `resetState()`: both carry-forward strings empty. -/
def st0 : PState := { lastThinkingContent := [], lastAnswerContent := [], isThinking := false }

/-- `processCoTResponse` from `src/js/chat-controller.js` (lines 139-187),
with the module state passed and returned explicitly.

* `thinkingMatch` is non-null iff the text contains `"Thinking:"`; its group
  is `takeUntil answerMarker (afterFirst thinkingMarker response)`.
* `answerMatch` is non-null iff the text contains `"Answer:"`; its group is
  `afterFirst answerMarker response`.
* The third source branch tests `response.includes('Thinking:') &&
  !thinkingMatch`, i.e. contains-and-not-contains, modelled literally. -/
def processCoTResponse (response : Str) (st : PState) : CoTResult × PState :=
  if containsSub thinkingMarker response && containsSub answerMarker response then
    let thinking := trimL (takeUntil answerMarker (afterFirst thinkingMarker response))
    let answer := trimL (afterFirst answerMarker response)
    ({ thinking := thinking, answer := answer, hasStructuredResponse := true },
      { st with lastThinkingContent := thinking, lastAnswerContent := answer })
  else if startsWithL thinkingMarker response && !containsSub answerMarker response then
    let thinking := trimL (stripPre thinkingMarker response)
    ({ thinking := thinking, answer := st.lastAnswerContent, hasStructuredResponse := true,
        isPartial := true, stage := some thinkingStage },
      { st with lastThinkingContent := thinking })
  else if containsSub thinkingMarker response && !containsSub thinkingMarker response then
    ({ thinking := trimL (afterFirst thinkingMarker response), answer := [],
        hasStructuredResponse := false, isPartial := true }, st)
  else
    ({ thinking := [], answer := response, hasStructuredResponse := false }, st)

/-- `processPartialCoTResponse` from `src/js/chat-controller.js`
(lines 194-227).  It reads no module state.  In the both-markers branch the
source re-runs the two regexes and checks they matched; both matches succeed
exactly when the respective marker is contained, which the branch condition
already guarantees, so the inner conditional is modelled by the branch
condition itself. -/
def processPartialCoTResponse (fullText : Str) : CoTResult :=
  if containsSub thinkingMarker fullText && !containsSub answerMarker fullText then
    { thinking := trimL (afterFirst thinkingMarker fullText), answer := [],
      hasStructuredResponse := true, isPartial := true, stage := some thinkingStage }
  else if containsSub thinkingMarker fullText && containsSub answerMarker fullText then
    { thinking := trimL (takeUntil answerMarker (afterFirst thinkingMarker fullText)),
      answer := trimL (afterFirst answerMarker fullText),
      hasStructuredResponse := true, isPartial := false }
  else
    { thinking := [], answer := fullText, hasStructuredResponse := false }

/-- The settings fields read by `formatResponseForDisplay`
(`settings.enableCoT`, `settings.showThinking`). -/
structure Settings where
  enableCoT : Bool
  showThinking : Bool
  deriving DecidableEq

/-- `formatResponseForDisplay` from `src/js/chat-controller.js`
(lines 235-253).  `processed.answer || '🤔 Thinking...'` evaluates to the
placeholder exactly when the answer is the empty string. -/
def formatResponseForDisplay (processed : CoTResult) (settings : Settings) : Str :=
  if !settings.enableCoT || !processed.hasStructuredResponse then
    processed.answer
  else if settings.showThinking then
    if processed.isPartial && processed.stage == some thinkingStage then
      "Thinking: ".data ++ processed.thinking
    else if processed.isPartial then
      processed.thinking
    else
      "Thinking: ".data ++ processed.thinking ++ "\n\nAnswer: ".data ++ processed.answer
  else
    if processed.answer = [] then thinkingPlaceholder else processed.answer

/-- `stage == COMPLETE` of the specification corresponds in the source to a
structured, non-partial classification (only the both-markers branches
produce it). -/
def isComplete (r : CoTResult) : Bool :=
  r.hasStructuredResponse && !r.isPartial

/-- `stage == REASONING` of the specification corresponds in the source to a
structured partial classification tagged `stage: 'thinking'`. -/
def isReasoningStage (r : CoTResult) : Bool :=
  r.hasStructuredResponse && r.isPartial && r.stage == some thinkingStage

/-- If `p` does not occur as a substring of `s`, it is not a prefix of `s`. -/
theorem startsWithL_eq_false (p s : Str) (h : containsSub p s = false) :
    startsWithL p s = false := by
  cases s with
  | nil => simpa [containsSub] using h
  | cons c cs =>
      simp only [containsSub, Bool.or_eq_false_iff] at h
      exact h.1

/-- C1: for every text containing both markers, `processCoTResponse` returns
reasoning = the substring between the first `"Thinking:"` and the first
subsequent `"Answer:"` (to the end of text when no `"Answer:"` follows the
`"Thinking:"` marker, per the regex `$` alternative), answer = the substring
from the first `"Answer:"` to the end of the text, both trimmed, with
`isStructured = true`, stage COMPLETE (structured, non-partial, no stage
tag), `isPartial = false`. -/
theorem spec_c1 (t : Str) (st : PState)
    (hT : containsSub thinkingMarker t = true)
    (hA : containsSub answerMarker t = true) :
    (processCoTResponse t st).1 =
      { thinking := trimL (takeUntil answerMarker (afterFirst thinkingMarker t)),
        answer := trimL (afterFirst answerMarker t),
        hasStructuredResponse := true, isPartial := false, stage := none } := by
  simp [processCoTResponse, hT, hA]

theorem spec_c1_witness :
    containsSub thinkingMarker "Thinking: because X\nAnswer: Y".data = true ∧
    containsSub answerMarker "Thinking: because X\nAnswer: Y".data = true ∧
    (processCoTResponse "Thinking: because X\nAnswer: Y".data st0).1 =
      { thinking := "because X".data, answer := "Y".data,
        hasStructuredResponse := true, isPartial := false, stage := none } :=
  ⟨by decide, by decide,
    (spec_c1 "Thinking: because X\nAnswer: Y".data st0 (by decide) (by decide)).trans
      (by decide)⟩

/-- C2 counterexample: on `"x Thinking: y"` — which contains `"Thinking:"`,
does not start with it, and contains no `"Answer:"` — the claim predicts
reasoning `"y"`, answer `""` and `isPartial = true`, but the source returns
none of these: the malformed branch tests `includes('Thinking:') &&
!thinkingMatch`, and the thinking regex matches whenever `"Thinking:"`
occurs, so that branch never fires and the input falls to the default
branch. -/
theorem spec_c2_cex :
    ¬ ((processCoTResponse "x Thinking: y".data st0).1.thinking = "y".data ∧
       (processCoTResponse "x Thinking: y".data st0).1.answer = [] ∧
       (processCoTResponse "x Thinking: y".data st0).1.isPartial = true) := by
  decide

/-- C2 amended: for every text that contains `"Thinking:"` but does not
start with it and does not contain `"Answer:"`, `processCoTResponse` falls
through to the unstructured default branch: reasoning = `""`, answer = the
entire text verbatim, `isStructured = false`, `isPartial = false`, and the
parser state is left unchanged (the dedicated malformed branch is
unreachable). -/
theorem spec_c2 (t : Str) (st : PState)
    (hT : containsSub thinkingMarker t = true)
    (hS : startsWithL thinkingMarker t = false)
    (hA : containsSub answerMarker t = false) :
    (processCoTResponse t st).1 =
      { thinking := [], answer := t, hasStructuredResponse := false,
        isPartial := false, stage := none } ∧
    (processCoTResponse t st).2 = st := by
  constructor <;> simp [processCoTResponse, hT, hS, hA]

theorem spec_c2_witness :
    containsSub thinkingMarker "x Thinking: y".data = true ∧
    startsWithL thinkingMarker "x Thinking: y".data = false ∧
    containsSub answerMarker "x Thinking: y".data = false ∧
    ((processCoTResponse "x Thinking: y".data st0).1 =
      { thinking := [], answer := "x Thinking: y".data, hasStructuredResponse := false,
        isPartial := false, stage := none } ∧
     (processCoTResponse "x Thinking: y".data st0).2 = st0) :=
  ⟨by decide, by decide, by decide,
    spec_c2 "x Thinking: y".data st0 (by decide) (by decide) (by decide)⟩

/-- C3 counterexample: for the classification with empty answer and
`isStructured = false` and a config with `showReasoning = false`,
`formatResponseForDisplay` returns the empty string (the verbatim empty
answer), not the waiting placeholder — refuting "regardless of the
classification's other fields". -/
theorem spec_c3_cex :
    formatResponseForDisplay
        { thinking := [], answer := [], hasStructuredResponse := false }
        { enableCoT := false, showThinking := false } = [] ∧
    formatResponseForDisplay
        { thinking := [], answer := [], hasStructuredResponse := false }
        { enableCoT := false, showThinking := false } ≠ thinkingPlaceholder := by
  decide

/-- C3 amended: for every classification with empty answer and every config
with `showReasoning = false`, provided chain-of-thought is enabled and the
classification is structured (so the verbatim-answer fast path does not
apply), `formatResponseForDisplay` returns the fixed waiting placeholder,
which is non-empty. -/
theorem spec_c3 (r : CoTResult) (s : Settings)
    (hc : s.enableCoT = true) (hs : s.showThinking = false)
    (hr : r.hasStructuredResponse = true) (ha : r.answer = []) :
    formatResponseForDisplay r s = thinkingPlaceholder ∧ thinkingPlaceholder ≠ [] := by
  refine ⟨?_, by decide⟩
  simp [formatResponseForDisplay, hc, hs, hr, ha]

theorem spec_c3_witness :
    (({ enableCoT := true, showThinking := false } : Settings).enableCoT = true ∧
     ({ enableCoT := true, showThinking := false } : Settings).showThinking = false ∧
     ({ thinking := "t".data, answer := [], hasStructuredResponse := true,
        isPartial := true, stage := some thinkingStage } : CoTResult).hasStructuredResponse
       = true ∧
     ({ thinking := "t".data, answer := [], hasStructuredResponse := true,
        isPartial := true, stage := some thinkingStage } : CoTResult).answer = []) ∧
    (formatResponseForDisplay
        { thinking := "t".data, answer := [], hasStructuredResponse := true,
          isPartial := true, stage := some thinkingStage }
        { enableCoT := true, showThinking := false } = thinkingPlaceholder ∧
      thinkingPlaceholder ≠ []) :=
  ⟨⟨by decide, by decide, by decide, by decide⟩,
    spec_c3
      { thinking := "t".data, answer := [], hasStructuredResponse := true,
        isPartial := true, stage := some thinkingStage }
      { enableCoT := true, showThinking := false }
      (by decide) (by decide) (by decide) (by decide)⟩

/-- C4 counterexample: on `"Thinking: x\nAnswer:"` both markers are present,
so `processCoTResponse` produces a structured non-partial (stage COMPLETE)
classification, yet the answer — the trimmed text after `"Answer:"` — is
empty: an empty answer IS marked complete, refuting the invariant. -/
theorem spec_c4_cex :
    isComplete (processCoTResponse "Thinking: x\nAnswer:".data st0).1 = true ∧
    (processCoTResponse "Thinking: x\nAnswer:".data st0).1.answer = [] := by
  decide

/-- C4 amended: every classification marked COMPLETE (structured and
non-partial) by `processCoTResponse` or `processPartialCoTResponse` comes
from a text containing the `"Answer:"` marker, and its answer equals the
trimmed text after the first `"Answer:"` — which is empty exactly when only
whitespace follows the marker, so an empty answer can be marked complete. -/
theorem spec_c4 (t : Str) (st : PState) :
    (isComplete (processCoTResponse t st).1 = true →
      containsSub answerMarker t = true ∧
      (processCoTResponse t st).1.answer = trimL (afterFirst answerMarker t)) ∧
    (isComplete (processPartialCoTResponse t) = true →
      containsSub answerMarker t = true ∧
      (processPartialCoTResponse t).answer = trimL (afterFirst answerMarker t)) := by
  constructor
  · intro h
    cases hT : containsSub thinkingMarker t with
    | true =>
        cases hA : containsSub answerMarker t with
        | true => exact ⟨rfl, by simp [processCoTResponse, hT, hA]⟩
        | false =>
            cases hS : startsWithL thinkingMarker t with
            | true => simp [processCoTResponse, isComplete, hT, hA, hS] at h
            | false => simp [processCoTResponse, isComplete, hT, hA, hS] at h
    | false =>
        have hS := startsWithL_eq_false thinkingMarker t hT
        simp [processCoTResponse, isComplete, hT, hS] at h
  · intro h
    cases hT : containsSub thinkingMarker t with
    | true =>
        cases hA : containsSub answerMarker t with
        | true => exact ⟨rfl, by simp [processPartialCoTResponse, hT, hA]⟩
        | false => simp [processPartialCoTResponse, isComplete, hT, hA] at h
    | false => simp [processPartialCoTResponse, isComplete, hT] at h

theorem spec_c4_witness :
    isComplete (processCoTResponse "Thinking: a\nAnswer: b".data st0).1 = true ∧
    (containsSub answerMarker "Thinking: a\nAnswer: b".data = true ∧
     (processCoTResponse "Thinking: a\nAnswer: b".data st0).1.answer =
       trimL (afterFirst answerMarker "Thinking: a\nAnswer: b".data)) :=
  ⟨by decide, (spec_c4 "Thinking: a\nAnswer: b".data st0).1 (by decide)⟩

/-- C5: for every text starting with `"Thinking:"` and containing no
`"Answer:"`, `processCoTResponse` returns reasoning = the remainder after
the prefix, trimmed, `isStructured = true`, stage REASONING
(`stage: 'thinking'`), `isPartial = true`, answer = the carried-forward
`lastAnswerContent` of the state; and it updates the state's
`lastThinkingContent` to the extracted reasoning, leaving
`lastAnswerContent` unchanged. -/
theorem spec_c5 (t : Str) (st : PState)
    (hS : startsWithL thinkingMarker t = true)
    (hA : containsSub answerMarker t = false) :
    (processCoTResponse t st).1 =
      { thinking := trimL (t.drop thinkingMarker.length),
        answer := st.lastAnswerContent, hasStructuredResponse := true,
        isPartial := true, stage := some thinkingStage } ∧
    (processCoTResponse t st).2 =
      { st with lastThinkingContent := trimL (t.drop thinkingMarker.length) } := by
  constructor <;> simp [processCoTResponse, stripPre, hS, hA]

theorem spec_c5_witness :
    startsWithL thinkingMarker "Thinking: still working".data = true ∧
    containsSub answerMarker "Thinking: still working".data = false ∧
    (processCoTResponse "Thinking: still working".data st0).1 =
      { thinking := "still working".data, answer := [], hasStructuredResponse := true,
        isPartial := true, stage := some thinkingStage } ∧
    (processCoTResponse "Thinking: still working".data st0).2 =
      { st0 with lastThinkingContent := "still working".data } := by
  have h := spec_c5 "Thinking: still working".data st0 (by decide) (by decide)
  exact ⟨by decide, by decide, h.1.trans (by decide), h.2.trans (by decide)⟩

/-- C6: feeding `processPartialCoTResponse` the snapshot sequence
`"Thinking: a"`, `"Thinking: ab"`, `"Thinking: ab\nAnswer: c"` yields the
stage sequence REASONING, REASONING, COMPLETE, and the final answer is
`"c"` (the function reads no parser state, so a fresh state is trivially
unchanged). -/
theorem spec_c6 :
    isReasoningStage (processPartialCoTResponse "Thinking: a".data) = true ∧
    isReasoningStage (processPartialCoTResponse "Thinking: ab".data) = true ∧
    isComplete (processPartialCoTResponse "Thinking: ab\nAnswer: c".data) = true ∧
    (processPartialCoTResponse "Thinking: ab\nAnswer: c".data).answer = "c".data := by
  decide

/-- C7: for every text containing neither `"Thinking:"` nor `"Answer:"`,
`processCoTResponse` returns reasoning = `""`, answer = the text verbatim,
`isStructured = false`, `isPartial = false`, stage NONE, and leaves the
state unchanged. -/
theorem spec_c7 (t : Str) (st : PState)
    (hT : containsSub thinkingMarker t = false)
    (hA : containsSub answerMarker t = false) :
    (processCoTResponse t st).1 =
      { thinking := [], answer := t, hasStructuredResponse := false,
        isPartial := false, stage := none } ∧
    (processCoTResponse t st).2 = st := by
  have hS := startsWithL_eq_false thinkingMarker t hT
  constructor <;> simp [processCoTResponse, hT, hA, hS]

theorem spec_c7_witness :
    containsSub thinkingMarker "hello world".data = false ∧
    containsSub answerMarker "hello world".data = false ∧
    ((processCoTResponse "hello world".data st0).1 =
      { thinking := [], answer := "hello world".data, hasStructuredResponse := false,
        isPartial := false, stage := none } ∧
     (processCoTResponse "hello world".data st0).2 = st0) :=
  ⟨by decide, by decide, spec_c7 "hello world".data st0 (by decide) (by decide)⟩

/-- C8: all three operations are total Lean functions over all string
inputs (they can raise nothing); on the empty string, for every state and
every settings record, `processCoTResponse` yields the NONE-stage result
with `isStructured = false` and empty answer without touching the state,
`processPartialCoTResponse` yields the same empty-segment result, and
`formatResponseForDisplay` on that classification is a defined string (the
verbatim empty answer). -/
theorem spec_c8 (st : PState) (s : Settings) :
    processCoTResponse [] st =
      ({ thinking := [], answer := [], hasStructuredResponse := false,
         isPartial := false, stage := none }, st) ∧
    processPartialCoTResponse [] =
      { thinking := [], answer := [], hasStructuredResponse := false,
        isPartial := false, stage := none } ∧
    formatResponseForDisplay (processCoTResponse [] st).1 s = [] := by
  have hT : containsSub thinkingMarker ([] : Str) = false := by decide
  have hA : containsSub answerMarker ([] : Str) = false := by decide
  have hS := startsWithL_eq_false thinkingMarker [] hT
  refine ⟨?_, by decide, ?_⟩
  · simp [processCoTResponse, hT, hA, hS]
  · simp [processCoTResponse, formatResponseForDisplay, hT, hA, hS]

/-- C9: `processCoTResponse` is idempotent with respect to its carry-forward
state: running it a second time on the same text, starting from the state
the first run produced, returns the same classification (the first run may
update `lastThinkingContent`/`lastAnswerContent`, but never in a way that
changes the result for the same text). -/
theorem spec_c9 (t : Str) (st : PState) :
    (processCoTResponse t (processCoTResponse t st).2).1 = (processCoTResponse t st).1 := by
  cases hT : containsSub thinkingMarker t with
  | true =>
      cases hA : containsSub answerMarker t with
      | true => simp [processCoTResponse, hT, hA]
      | false =>
          cases hS : startsWithL thinkingMarker t with
          | true => simp [processCoTResponse, hT, hA, hS]
          | false => simp [processCoTResponse, hT, hA, hS]
  | false =>
      have hS := startsWithL_eq_false thinkingMarker t hT
      simp [processCoTResponse, hT, hS]

/-- C10: for every text containing `"Answer:"` but not `"Thinking:"`, both
`processCoTResponse` and `processPartialCoTResponse` treat it as
unstructured: the entire text is returned verbatim as the answer (the
`"Answer:"` prefix is not stripped), with reasoning = `""` and
`isStructured = false`. -/
theorem spec_c10 (t : Str) (st : PState)
    (hA : containsSub answerMarker t = true)
    (hT : containsSub thinkingMarker t = false) :
    (processCoTResponse t st).1 =
      { thinking := [], answer := t, hasStructuredResponse := false,
        isPartial := false, stage := none } ∧
    processPartialCoTResponse t =
      { thinking := [], answer := t, hasStructuredResponse := false,
        isPartial := false, stage := none } := by
  have hS := startsWithL_eq_false thinkingMarker t hT
  constructor <;> simp [processCoTResponse, processPartialCoTResponse, hA, hT, hS]

theorem spec_c10_witness :
    containsSub answerMarker "Answer: hi".data = true ∧
    containsSub thinkingMarker "Answer: hi".data = false ∧
    ((processCoTResponse "Answer: hi".data st0).1 =
      { thinking := [], answer := "Answer: hi".data, hasStructuredResponse := false,
        isPartial := false, stage := none } ∧
     processPartialCoTResponse "Answer: hi".data =
      { thinking := [], answer := "Answer: hi".data, hasStructuredResponse := false,
        isPartial := false, stage := none }) :=
  ⟨by decide, by decide, spec_c10 "Answer: hi".data st0 (by decide) (by decide)⟩

end SimpleAiAgent
